import Mathlib

/-!
# Consul client examples: blocking watches, service listing, TTL heartbeats, sessions

A shallow embedding of the Go programs under `consul/`.  Every program talks to
a Consul agent through the `github.com/hashicorp/consul/api` client; the answers
of the agent are inputs of the model (a list of poll results, the error returned
by a call) and the calls, log lines and sleeps a program performs are its
observable trace, a list of actions in program order.

The infinite loops (`for { ... }`, `for range ticker.C`) are modelled on a
finite list of answers: the trace is the one the loop has produced once these
answers have been consumed.  For the blocking watches the trace ends with the
query that is issued next and is still waiting for its answer.

`uint64` indices are natural numbers: the programs copy and print them and do
no arithmetic on them.
-/

namespace Consul

/-- The part of `consul.QueryMeta` the programs read. -/
structure QueryMeta where
  LastIndex : Nat
deriving DecidableEq

/-- The cursor handed to successive blocking queries: the loop starts a query
with the current cursor, a failed answer (`none`) keeps it and a successful
answer (`some i`) replaces it by `i`.  Both watch loops thread `lastIndex`
this way; the function is used to state and prove facts about them. -/
def cursors : Nat → List (Option Nat) → List Nat
  | c, [] => [c]
  | c, none :: rs => c :: cursors c rs
  | c, some i :: rs => c :: cursors i rs

/-- The indices returned by the successful answers, in order. -/
def okIndices (rs : List (Option Nat)) : List Nat :=
  rs.filterMap id

/-- The index of the last successful poll, `0` if there was none. -/
def lastSuccessIndex (rs : List (Option Nat)) : Nat :=
  (okIndices rs).getLast?.getD 0

/-- The highest index observed in a successful poll, `0` if there was none. -/
def highestIndex (rs : List (Option Nat)) : Nat :=
  (okIndices rs).foldr max 0

/-! ## consul_kv_watch.go -/

namespace KVWatch

/-- The part of `consul.KVPair` the program reads (`Value` is printed with `%s`). -/
structure KVPair where
  Key : String
  Value : String
deriving DecidableEq

/-- What `kv.Get(key, blockingQuery)` returns: `(kvPair, meta, err)`; `kvPair`
is `nil` for a key that does not exist. -/
inductive GetResult where
  | ok (kvPair : Option KVPair) (qmeta : QueryMeta)
  | err (e : String)
deriving DecidableEq

/-- The `log.Printf` calls of `Watch`, one constructor per call site. -/
inductive LogLine where
  | watching (key : String)
  | lookupError (e : String)
  | keyValue (lastIndex : Nat) (key value : String)
  | notFound (lastIndex : Nat) (key : String)
deriving DecidableEq

/-- The text `log.Printf` formats for each call site. -/
def LogLine.render : LogLine → String
  | .watching key => "watching \x27" ++ key ++ "\x27 key\n"
  | .lookupError e => "lookup key error: " ++ e ++ "\n"
  | .keyValue lastIndex key value =>
      "LastIndex: " ++ toString lastIndex ++ ", \x27" ++ key ++ "\x27 key value is \x27" ++ value ++ "\x27\n"
  | .notFound lastIndex key =>
      "LastIndex: " ++ toString lastIndex ++ ", key \x27" ++ key ++ "\x27 not found\n"

/-- What `Watch` does, in program order. -/
inductive Action where
  | log (l : LogLine)
  | get (key : String) (waitIndex : Nat)
  | sleep (seconds : Nat)
deriving DecidableEq

/-- The `for` loop of `Watch`, started with `lastIndex` and fed the answers of
`kv.Get`.  Each iteration issues `kv.Get` with `WaitIndex: lastIndex`; on an
error it logs, sleeps one second and continues; otherwise it stores
`meta.LastIndex` and logs the value or that the key was not found. -/
def loop (key : String) : Nat → List GetResult → List Action
  | lastIndex, [] => [.get key lastIndex]
  | lastIndex, .err e :: rs =>
      .get key lastIndex :: .log (.lookupError e) :: .sleep 1 :: loop key lastIndex rs
  | lastIndex, .ok kvPair qmeta :: rs =>
      let lastIndex1 := qmeta.LastIndex
      .get key lastIndex ::
        .log (match kvPair with
          | some p => .keyValue lastIndex1 key p.Value
          | none => .notFound lastIndex1 key) ::
        loop key lastIndex1 rs

/-- `Watch(kv, key)`: `lastIndex` starts at zero. -/
def Watch (key : String) (rs : List GetResult) : List Action :=
  .log (.watching key) :: loop key 0 rs

/-- The `WaitIndex` of each `kv.Get` call of a trace, in order. -/
def waitIndices (t : List Action) : List Nat :=
  t.filterMap fun a => match a with
    | .get _ w => some w
    | _ => none

/-- The index carried by a change report (value or not found). -/
def reportIndex : Action → Option Nat
  | .log (.keyValue i _ _) => some i
  | .log (.notFound i _) => some i
  | _ => none

/-- Whether an action is the report of a failed poll. -/
def isErrorReport : Action → Bool
  | .log (.lookupError _) => true
  | _ => false

/-- Whether an action is a wait. -/
def isSleep : Action → Bool
  | .sleep _ => true
  | _ => false

/-- The index of a successful answer, `none` for a failed one. -/
def GetResult.index : GetResult → Option Nat
  | .ok _ qmeta => some qmeta.LastIndex
  | .err _ => none

end KVWatch

/-! ## consul_service_watch.go and consul_service_query.go -/

/-- The part of `consul.CatalogService` the programs read. -/
structure CatalogService where
  ServiceName : String
  ServiceAddress : String
  ServicePort : Int
deriving DecidableEq

/-- What `catalog.Service(serviceName, "", q)` returns: `(instanceList, meta, err)`. -/
inductive ServiceResult where
  | ok (instanceList : List CatalogService) (qmeta : QueryMeta)
  | err (e : String)
deriving DecidableEq

/-- The test `len(instanceList) < 1 || instanceList[0].ServiceName != serviceName`. -/
def serviceNotFound (instanceList : List CatalogService) (serviceName : String) : Bool :=
  decide (instanceList.length < 1) ||
    (match instanceList with
      | [] => true
      | first :: _ => first.ServiceName != serviceName)

/-- The `for _, instance := range instanceList` loop: one
`fmt.Sprintf("%s:%d", host, port)` per instance, appended in order. -/
def nodeListOf (instanceList : List CatalogService) : List String :=
  instanceList.map fun i => i.ServiceAddress ++ ":" ++ toString i.ServicePort

/-- The comparison `a < b` of two Go strings, on their characters:
lexicographic, a proper prefix coming first.  (Go compares the UTF-8 bytes,
which orders strings as their code points do.) -/
def lexLt : List Char → List Char → Bool
  | _, [] => false
  | [], _ :: _ => true
  | a :: as, b :: bs =>
    if a < b then true else if a = b then lexLt as bs else false

/-- The comparison `a <= b` of two Go strings. -/
def stringLe (a b : String) : Bool :=
  !lexLt b.data a.data

/-- `sort.Strings`: the list in ascending string order. -/
def sortStrings (l : List String) : List String :=
  l.insertionSort (fun a b => stringLe a b = true)

/-- `strings.Join(nodeList, ",")`. -/
def joinComma (l : List String) : String :=
  String.intercalate "," l

namespace ServiceWatch

/-- The `log.Printf` calls of `Watch`, one constructor per call site;
`instances` carries the joined node list that is printed. -/
inductive LogLine where
  | watching (serviceName : String)
  | queryError (e : String)
  | notFound (lastIndex : Nat) (serviceName : String)
  | instances (lastIndex : Nat) (nodes : String)
deriving DecidableEq

/-- The text `log.Printf` formats for each call site. -/
def LogLine.render : LogLine → String
  | .watching serviceName => "watching \x27" ++ serviceName ++ "\x27 service\n"
  | .queryError e => "query service error: " ++ e ++ "\n"
  | .notFound lastIndex serviceName =>
      "LastIndex: " ++ toString lastIndex ++ ", service \x27" ++ serviceName ++ "\x27 not found\n"
  | .instances lastIndex nodes =>
      "LastIndex: " ++ toString lastIndex ++ ", instances: " ++ nodes ++ "\n"

/-- What `Watch` does, in program order. -/
inductive Action where
  | log (l : LogLine)
  | service (serviceName : String) (waitIndex : Nat)
  | sleep (seconds : Nat)
deriving DecidableEq

/-- The `for` loop of `Watch`, started with `lastIndex` and fed the answers of
`catalog.Service`.  Each iteration issues the query with `WaitIndex: lastIndex`;
on an error it logs, sleeps one second and continues; otherwise it stores
`meta.LastIndex` and logs either that the service was not found or the sorted,
comma-joined node list. -/
def loop (serviceName : String) : Nat → List ServiceResult → List Action
  | lastIndex, [] => [.service serviceName lastIndex]
  | lastIndex, .err e :: rs =>
      .service serviceName lastIndex :: .log (.queryError e) :: .sleep 1 ::
        loop serviceName lastIndex rs
  | lastIndex, .ok instanceList qmeta :: rs =>
      let lastIndex1 := qmeta.LastIndex
      .service serviceName lastIndex ::
        .log (if serviceNotFound instanceList serviceName then
            .notFound lastIndex1 serviceName
          else
            let nodeList := sortStrings (nodeListOf instanceList)
            .instances lastIndex1 (joinComma nodeList)) ::
        loop serviceName lastIndex1 rs

/-- `Watch(catalog, serviceName)`: `lastIndex` starts at zero. -/
def Watch (serviceName : String) (rs : List ServiceResult) : List Action :=
  .log (.watching serviceName) :: loop serviceName 0 rs

/-- The `WaitIndex` of each `catalog.Service` call of a trace, in order. -/
def waitIndices (t : List Action) : List Nat :=
  t.filterMap fun a => match a with
    | .service _ w => some w
    | _ => none

/-- The index carried by a change report (instances or not found). -/
def reportIndex : Action → Option Nat
  | .log (.instances i _) => some i
  | .log (.notFound i _) => some i
  | _ => none

/-- Whether an action is the report of a failed poll. -/
def isErrorReport : Action → Bool
  | .log (.queryError _) => true
  | _ => false

/-- Whether an action is a wait. -/
def isSleep : Action → Bool
  | .sleep _ => true
  | _ => false

end ServiceWatch

/-- The index of a successful answer, `none` for a failed one. -/
def ServiceResult.index : ServiceResult → Option Nat
  | .ok _ qmeta => some qmeta.LastIndex
  | .err _ => none

namespace ServiceQuery

/-- What `main` of consul_service_query.go does, in program order.  `fatal` is
`log.Fatal`, which prints and ends the process; `notFound` is
`fmt.Printf("service \x27%s\x27 not found\n", serviceName)` and `found` is
`fmt.Printf("%s: %s\n", serviceName, strings.Join(nodeList, ","))`. -/
inductive Action where
  | newClient
  | fatal (msg : String)
  | service (serviceName : String)
  | notFound (serviceName : String)
  | found (serviceName : String) (nodes : String)
deriving DecidableEq

/-- `main`: `serviceName` is the `-service` flag, `clientErr` the error of
`consul.NewClient` and `r` the answer of the one catalog query. -/
def main (serviceName : String) (clientErr : Option String) (r : ServiceResult) :
    List Action :=
  match clientErr with
  | some e => [.newClient, .fatal ("create client error: " ++ e)]
  | none =>
    match r with
    | .err e => [.newClient, .service serviceName, .fatal ("query service error: " ++ e)]
    | .ok instanceList _ =>
      if serviceNotFound instanceList serviceName then
        [.newClient, .service serviceName, .notFound serviceName]
      else
        let nodeList := sortStrings (nodeListOf instanceList)
        [.newClient, .service serviceName, .found serviceName (joinComma nodeList)]

end ServiceQuery

/-! ## consul_service_register_ttl.go and consul_session.go

The two long-running programs start background goroutines and shut down on
`SIGINT`.  Each goroutine is modelled by the list of actions it performs, in
its own program order. -/

/-- The calls and synchronisation steps of the two programs.  `fatal` is
`log.Fatal`/`log.Fatalf`: it prints the message and calls `os.Exit(1)`, so the
process ends there and deferred calls are not run.  `wgWait` stands for
`wg.Wait()` having returned, `closeDone` for `close(doneCh)` and `recvSignal`
for a signal received from the channel in `select`.  `renewPeriodic` is the
whole call `session.RenewPeriodic` of the client, taken as one action: the
renewals it sends, and the destroy it sends once `doneCh` is closed, happen
inside it and are not listed.  `sessionDestroy` is the call `session.Destroy`,
which no function of the repository makes itself. -/
inductive Act where
  | newClient
  | log (msg : String)
  | fatal (msg : String)
  | go (f : String) (args : List String)
  | signalNotify
  | recvSignal (sig : String)
  | mainReturn
  | sessionCreate (behavior ttl : String) (lockDelay : Nat)
  | renewPeriodic (initialTTL sessionId : String)
  | sessionDestroy (sessionId : String)
  | kvAcquire (key value session : String)
  | wgAdd (n : Nat)
  | wgDone
  | closeDone
  | wgWait
  | newListener
  | serviceRegister (name id address : String) (port : Int) (ttl deregisterAfter : String)
  | newTicker (seconds : Nat)
  | tick
  | updateTTL (checkID note status : String)
  | serve
  | serviceDeregister (serviceID : String)
deriving DecidableEq

/-- Whether an action ends the process (`log.Fatal`, `log.Fatalf`). -/
def Act.isFatal : Act → Bool
  | .fatal _ => true
  | _ => false

/-- Whether an action is a log line (`log.Printf`). -/
def Act.isLog : Act → Bool
  | .log _ => true
  | _ => false

/-- Whether an action destroys a session or deregisters a service. -/
def Act.isTeardown : Act → Bool
  | .sessionDestroy _ => true
  | .serviceDeregister _ => true
  | _ => false

/-- Sequential composition: what follows a fatal log is not executed. -/
def andThen (a b : List Act) : List Act :=
  if a.any Act.isFatal then a else a ++ b

/-- The shutdown ordering on a trace, read from left to right: `stopped`
records that the stop signal (`close(doneCh)`) has been given, `waited` that
after it the wait for the loop has completed; a destroy or deregister action
is in order only when both hold. -/
def shutdownOrdered : Bool → Bool → List Act → Bool
  | _, _, [] => true
  | stopped, waited, a :: t =>
    match a with
    | .closeDone => shutdownOrdered true waited t
    | .wgWait => shutdownOrdered stopped (stopped || waited) t
    | _ => (!a.isTeardown || (stopped && waited)) && shutdownOrdered stopped waited t

/-- `consul.HealthPassing` of the consul api package. -/
def HealthPassing : String := "passing"

/-- `consul.SessionBehaviorDelete` of the consul api package. -/
def SessionBehaviorDelete : String := "delete"

namespace RegisterTTL

/-- ConsulService holds the data of a service to register in Consul. -/
structure ConsulService where
  Name : String
  Address : String
  Port : Int
  ID : String
deriving DecidableEq

/-- `NewConsulService(name, address, port)`; `uuid` is the string
`uuid.New().String()` returns at the call. -/
def NewConsulService (name address : String) (port : Int) (uuid : String) : ConsulService :=
  { Name := name, Address := address, Port := port, ID := name ++ "-" ++ uuid }

/-- `UpdateTTL(agent, service)`: the ticker is created with a period of one
second, and for each tick received (one entry of the list, the error
`agent.UpdateTTL` returns at that tick) the check is updated and a returned
error is logged. -/
def UpdateTTL.ticks (service : ConsulService) : List (Option String) → List Act
  | [] => []
  | err :: rest =>
      .tick :: .updateTTL ("service:" ++ service.ID) "" HealthPassing ::
        ((match err with
          | some e => [Act.log ("update TTL error: " ++ e ++ "\n")]
          | none => []) ++ UpdateTTL.ticks service rest)

/-- `UpdateTTL(agent, service)`. -/
def UpdateTTL (service : ConsulService) (outcomes : List (Option String)) : List Act :=
  .newTicker 1 :: UpdateTTL.ticks service outcomes

/-- `Start(listener, service)`; `serveErr` is the error `http.Serve` returned,
`none` while it is still serving. -/
def Start (service : ConsulService) (serveErr : Option String) : List Act :=
  [.log ("listening on: " ++ service.Address ++ ":" ++ toString service.Port ++ "\n"), .serve] ++
    (match serveErr with
      | some e => [.fatal ("serve error: " ++ e)]
      | none => [])

/-- `Stop(agent, service)`: deregisters the service. -/
def Stop (service : ConsulService) (deregisterErr : Option String) : List Act :=
  .serviceDeregister service.ID ::
    (match deregisterErr with
      | some e => [.fatal ("service deregister error: " ++ e)]
      | none => [])

/-- The inputs of `main`: the flag, what `NewListener` returned (host and
port, or its error), the generated UUID, the errors of the client calls, and
the signal received (`none` while none has arrived). -/
structure Env where
  serviceName : String
  listener : Except String (String × Int)
  uuid : String
  clientErr : Option String
  registerErr : Option String
  signal : Option String
  deregisterErr : Option String

/-- `main` of consul_service_register_ttl.go: the actions of the main goroutine. -/
def main (env : Env) : List Act :=
  match env.listener with
  | .error e => [.newListener, .fatal ("create listener error: " ++ e)]
  | .ok (host, port) =>
    let service := NewConsulService env.serviceName host port env.uuid
    match env.clientErr with
    | some e => [.newListener, .newClient, .fatal ("create client error: " ++ e)]
    | none =>
      let register : Act :=
        .serviceRegister service.Name service.ID service.Address service.Port "5s" "1m"
      match env.registerErr with
      | some e => [.newListener, .newClient, register, .fatal ("service register error: " ++ e)]
      | none =>
        [.newListener, .newClient, register,
          .log ("registered myself as \x27" ++ service.Name ++ "\x27 service\n"),
          .go "UpdateTTL" [service.ID], .go "Start" [service.ID], .signalNotify] ++
        (match env.signal with
          | none => []
          | some sig =>
            andThen
              (.recvSignal sig ::
                .log ("\x27" ++ sig ++ "\x27 signal received, graceful shutdown\n") ::
                Stop service env.deregisterErr)
              [.mainReturn])

/-- An example run: every call succeeds and `SIGINT` is received. -/
def exampleEnv : Env :=
  { serviceName := "example"
    listener := .ok ("127.0.0.1", 41000)
    uuid := "123e4567-e89b-12d3-a456-426614174000"
    clientErr := none
    registerErr := none
    signal := some "interrupt"
    deregisterErr := none }

end RegisterTTL

namespace Session

/-- `RenewSession(session, initialTTL, sessionId, doneCh, wg)`; `renewErr` is
the error `session.RenewPeriodic` returned (`none` for `nil`).  `wg.Done` is
deferred: it runs when the function returns, and not when `log.Fatalf` ends
the process. -/
def RenewSession (initialTTL sessionId : String) (renewErr : Option String) : List Act :=
  andThen
    (.log ("periodically starting to renew \x27" ++ sessionId ++ "\x27\n") ::
      .renewPeriodic initialTTL sessionId ::
      (match renewErr with
        | some e => [.fatal ("session periodic renew error: " ++ e ++ "\n")]
        | none => [.log ("stopping to renew \x27" ++ sessionId ++ "\x27\n")]))
    [.wgDone]

/-- The inputs of `main`: the flags, the errors and results of the client
calls, and the signal received (`none` while none has arrived). -/
structure Env where
  key : String
  value : String
  clientErr : Option String
  create : Except String String
  acquire : Except String Bool
  signal : Option String

/-- `main` of consul_session.go: the actions of the main goroutine. -/
def main (env : Env) : List Act :=
  match env.clientErr with
  | some e => [.newClient, .fatal ("create client error: " ++ e ++ "\n")]
  | none =>
    let create : Act := .sessionCreate SessionBehaviorDelete "10s" 0
    match env.create with
    | .error e => [.newClient, create, .fatal ("create session error: " ++ e ++ "\n")]
    | .ok sessionId =>
      let start : List Act :=
        [.newClient, create, .log ("new session created: " ++ sessionId ++ "\n"),
          .wgAdd 1, .go "RenewSession" ["1s", sessionId], .kvAcquire env.key env.value sessionId]
      match env.acquire with
      | .error e => start ++ [.fatal ("key acquire error: " ++ e ++ "\n")]
      | .ok false => start ++ [.fatal ("can\x27t acquire \x27" ++ env.key ++ "\x27 key\n")]
      | .ok true =>
        start ++ [.log ("\x27" ++ env.key ++ "\x27 key lock acquired\n"), .signalNotify] ++
        (match env.signal with
          | none => []
          | some sig =>
            [.recvSignal sig, .log ("\x27" ++ sig ++ "\x27 signal received\n"),
              .closeDone, .wgWait, .mainReturn])

/-- An example run: every call succeeds, the lock is acquired and `SIGINT` is
received. -/
def exampleEnv : Env :=
  { key := "example"
    value := "whatever-value"
    clientErr := none
    create := .ok "0f1e2d3c"
    acquire := .ok true
    signal := some "interrupt" }

end Session

end Consul

/-! ## Proofs -/

namespace Consul

/-! ### The cursor of the watch loops -/

theorem getLast?_getD_cons (i c : Nat) (l : List Nat) :
    (i :: l).getLast?.getD c = l.getLast?.getD i := by
  cases l with
  | nil => rfl
  | cons a t =>
    simp [List.getLast?_cons_cons, List.getLast?_eq_getLast (a :: t) (List.cons_ne_nil a t)]

theorem cursors_zero (c : Nat) (rs : List (Option Nat)) : (cursors c rs)[0]? = some c := by
  cases rs with
  | nil => rfl
  | cons r rs => cases r <;> simp [cursors]

theorem cursors_length (c : Nat) (rs : List (Option Nat)) :
    (cursors c rs).length = rs.length + 1 := by
  induction rs generalizing c with
  | nil => rfl
  | cons r rs ih => cases r <;> simp [cursors, ih]

/-- The `k`-th cursor is the last index among the first `k` answers, and the
starting cursor when none of them succeeded. -/
theorem cursors_getElem? (c : Nat) (rs : List (Option Nat)) (k : Nat) (hk : k ≤ rs.length) :
    (cursors c rs)[k]? = some ((okIndices (rs.take k)).getLast?.getD c) := by
  induction rs generalizing c k with
  | nil =>
    have : k = 0 := by simpa using hk
    subst this
    rfl
  | cons r rs ih =>
    cases k with
    | zero => simp [cursors_zero, okIndices]
    | succ k =>
      have hk1 : k ≤ rs.length := by simpa using hk
      cases r with
      | none => simpa [cursors, okIndices] using ih c k hk1
      | some i =>
        have h := ih i k hk1
        simp only [cursors, List.getElem?_cons_succ, h, List.take_succ_cons, okIndices,
          List.filterMap_cons, id]
        rw [getLast?_getD_cons]

theorem cursors_succ_of_some (c : Nat) (rs : List (Option Nat)) (k i : Nat)
    (h : rs[k]? = some (some i)) : (cursors c rs)[k + 1]? = some i := by
  induction rs generalizing c k with
  | nil => simp at h
  | cons r rs ih =>
    cases k with
    | zero =>
      have hr : r = some i := by simpa using h
      subst hr
      simp [cursors, cursors_zero]
    | succ k =>
      have h1 : rs[k]? = some (some i) := by simpa using h
      cases r with
      | none => simpa [cursors] using ih c k h1
      | some j => simpa [cursors] using ih j k h1

theorem cursors_succ_of_none (c : Nat) (rs : List (Option Nat)) (k : Nat)
    (h : rs[k]? = some none) : (cursors c rs)[k + 1]? = (cursors c rs)[k]? := by
  induction rs generalizing c k with
  | nil => simp at h
  | cons r rs ih =>
    cases k with
    | zero =>
      have hr : r = none := by simpa using h
      subst hr
      simp [cursors, cursors_zero]
    | succ k =>
      have h1 : rs[k]? = some none := by simpa using h
      cases r with
      | none => simpa [cursors] using ih c k h1
      | some j => simpa [cursors] using ih j k h1

theorem okIndices_append (a b : List (Option Nat)) :
    okIndices (a ++ b) = okIndices a ++ okIndices b := by
  simp [okIndices, List.filterMap_append]

theorem okIndices_of_all_none (l : List (Option Nat)) (h : ∀ r ∈ l, r = none) :
    okIndices l = [] := by
  induction l with
  | nil => rfl
  | cons r l ih =>
    have hr : r = none := h r (List.mem_cons_self _ _)
    subst hr
    simpa [okIndices] using ih (fun x hx => h x (List.mem_cons_of_mem _ hx))

/-- For indices that never decrease the last one is the highest. -/
theorem getLast?_getD_eq_foldr_max (l : List Nat) (h : l.Pairwise (· ≤ ·)) :
    l.getLast?.getD 0 = l.foldr max 0 := by
  induction l with
  | nil => rfl
  | cons a t ih =>
    have ht : t.Pairwise (· ≤ ·) := (List.pairwise_cons.mp h).2
    have ha : ∀ b ∈ t, a ≤ b := (List.pairwise_cons.mp h).1
    rw [getLast?_getD_cons, List.foldr_cons, ← ih ht]
    cases t with
    | nil => simp
    | cons b u =>
      have hlast : (b :: u).getLast?.getD a = (b :: u).getLast?.getD 0 := by
        simp [getLast?_getD_cons]
      rw [hlast]
      have hmem : (b :: u).getLast?.getD 0 ∈ b :: u := by
        rw [List.getLast?_eq_getLast _ (List.cons_ne_nil b u)]
        exact List.getLast_mem _
      exact (max_eq_right (ha _ hmem)).symm

theorem okIndices_take_pairwise (rs : List (Option Nat)) (k : Nat)
    (h : (okIndices rs).Pairwise (· ≤ ·)) : (okIndices (rs.take k)).Pairwise (· ≤ ·) :=
  List.Pairwise.sublist ((List.take_sublist k rs).filterMap id) h

/-! ### The two loops thread the cursor -/

theorem kvWatch_waitIndices_loop (key : String) (c : Nat) (rs : List KVWatch.GetResult) :
    KVWatch.waitIndices (KVWatch.loop key c rs) = cursors c (rs.map KVWatch.GetResult.index) := by
  induction rs generalizing c with
  | nil => rfl
  | cons r rs ih =>
    cases r with
    | ok kvPair qmeta =>
      simp only [KVWatch.loop, KVWatch.waitIndices, List.filterMap_cons, List.map_cons,
        KVWatch.GetResult.index, cursors]
      exact congrArg _ (ih qmeta.LastIndex)
    | err e =>
      simp only [KVWatch.loop, KVWatch.waitIndices, List.filterMap_cons, List.map_cons,
        KVWatch.GetResult.index, cursors]
      exact congrArg _ (ih c)

theorem kvWatch_waitIndices_Watch (key : String) (rs : List KVWatch.GetResult) :
    KVWatch.waitIndices (KVWatch.Watch key rs) = cursors 0 (rs.map KVWatch.GetResult.index) := by
  rw [← kvWatch_waitIndices_loop key 0 rs]
  rfl

theorem serviceWatch_waitIndices_loop (name : String) (c : Nat) (rs : List ServiceResult) :
    ServiceWatch.waitIndices (ServiceWatch.loop name c rs) =
      cursors c (rs.map ServiceResult.index) := by
  induction rs generalizing c with
  | nil => rfl
  | cons r rs ih =>
    cases r with
    | ok instanceList qmeta =>
      simp only [ServiceWatch.loop, ServiceWatch.waitIndices, List.filterMap_cons, List.map_cons,
        ServiceResult.index, cursors]
      exact congrArg _ (ih qmeta.LastIndex)
    | err e =>
      simp only [ServiceWatch.loop, ServiceWatch.waitIndices, List.filterMap_cons, List.map_cons,
        ServiceResult.index, cursors]
      exact congrArg _ (ih c)

theorem serviceWatch_waitIndices_Watch (name : String) (rs : List ServiceResult) :
    ServiceWatch.waitIndices (ServiceWatch.Watch name rs) =
      cursors 0 (rs.map ServiceResult.index) := by
  rw [← serviceWatch_waitIndices_loop name 0 rs]
  rfl

theorem cursors_after_failures (c : Nat) (pre errs : List (Option Nat))
    (h : ∀ r ∈ errs, r = none) (k : Nat) (h1 : pre.length ≤ k) :
    (cursors c (pre ++ errs))[k]? =
      if k ≤ (pre ++ errs).length then some ((okIndices pre).getLast?.getD c) else none := by
  by_cases h2 : k ≤ (pre ++ errs).length
  · rw [if_pos h2, cursors_getElem? c (pre ++ errs) k h2, List.take_append_eq_append_take,
      List.take_of_length_le h1, okIndices_append,
      okIndices_of_all_none _ (fun r hr => h r (List.mem_of_mem_take hr)), List.append_nil]
  · rw [if_neg h2]
    apply List.getElem?_eq_none
    rw [cursors_length]
    omega

theorem cursors_highest (rs : List (Option Nat)) (k : Nat) (hk : k ≤ rs.length)
    (h : (okIndices rs).Pairwise (· ≤ ·)) :
    (cursors 0 rs)[k]? = some (highestIndex (rs.take k)) := by
  rw [cursors_getElem? 0 rs k hk, highestIndex,
    getLast?_getD_eq_foldr_max _ (okIndices_take_pairwise rs k h)]

theorem cursors_before_success (rs : List (Option Nat)) (k : Nat) (hk : k ≤ rs.length)
    (h : ∀ r ∈ rs.take k, r = none) : (cursors 0 rs)[k]? = some 0 := by
  rw [cursors_getElem? 0 rs k hk, okIndices_of_all_none _ h]
  rfl

/-! ### C1: hand-off of the index -/

/-- C1: in both Watch loops, for every sequence of poll results, the WaitIndex
of the poll that follows a successful poll is the LastIndex that poll returned.
This holds whatever index the loop held before, a higher one included: the
iteration then emits the query and one change report carrying the new index,
no error report and no sleep, and goes on from the new index. -/
theorem watch_cursor_handoff :
    (∀ (key : String) (rs : List KVWatch.GetResult) (k : Nat) (kvPair : Option KVWatch.KVPair)
        (qmeta : QueryMeta), rs[k]? = some (.ok kvPair qmeta) →
        (KVWatch.waitIndices (KVWatch.Watch key rs))[k + 1]? = some qmeta.LastIndex) ∧
    (∀ (name : String) (rs : List ServiceResult) (k : Nat) (instanceList : List CatalogService)
        (qmeta : QueryMeta), rs[k]? = some (.ok instanceList qmeta) →
        (ServiceWatch.waitIndices (ServiceWatch.Watch name rs))[k + 1]? = some qmeta.LastIndex) ∧
    (∀ (key : String) (lastIndex : Nat) (kvPair : Option KVWatch.KVPair) (qmeta : QueryMeta)
        (rs : List KVWatch.GetResult), ∃ report : KVWatch.Action,
        KVWatch.loop key lastIndex (.ok kvPair qmeta :: rs) =
          .get key lastIndex :: report :: KVWatch.loop key qmeta.LastIndex rs ∧
        KVWatch.reportIndex report = some qmeta.LastIndex ∧
        KVWatch.isErrorReport report = false ∧ KVWatch.isSleep report = false) ∧
    (∀ (name : String) (lastIndex : Nat) (instanceList : List CatalogService) (qmeta : QueryMeta)
        (rs : List ServiceResult), ∃ report : ServiceWatch.Action,
        ServiceWatch.loop name lastIndex (.ok instanceList qmeta :: rs) =
          .service name lastIndex :: report :: ServiceWatch.loop name qmeta.LastIndex rs ∧
        ServiceWatch.reportIndex report = some qmeta.LastIndex ∧
        ServiceWatch.isErrorReport report = false ∧ ServiceWatch.isSleep report = false) := by
  refine ⟨?_, ?_, ?_, ?_⟩
  · intro key rs k kvPair qmeta h
    rw [kvWatch_waitIndices_Watch]
    apply cursors_succ_of_some
    rw [List.getElem?_map, h]
    rfl
  · intro name rs k instanceList qmeta h
    rw [serviceWatch_waitIndices_Watch]
    apply cursors_succ_of_some
    rw [List.getElem?_map, h]
    rfl
  · intro key lastIndex kvPair qmeta rs
    cases kvPair with
    | none => exact ⟨_, rfl, rfl, rfl, rfl⟩
    | some p => exact ⟨_, rfl, rfl, rfl, rfl⟩
  · intro name lastIndex instanceList qmeta rs
    by_cases hnf : serviceNotFound instanceList name = true
    · refine ⟨.log (.notFound qmeta.LastIndex name), ?_, rfl, rfl, rfl⟩
      simp [ServiceWatch.loop, hnf]
    · refine ⟨.log (.instances qmeta.LastIndex
        (joinComma (sortStrings (nodeListOf instanceList)))), ?_, rfl, rfl, rfl⟩
      simp [ServiceWatch.loop, hnf]

/-- C1 at a regression: the polls return 5 and then 3, and the third poll of
each loop is issued with WaitIndex 3. -/
theorem watch_cursor_handoff_witness :
    (KVWatch.waitIndices (KVWatch.Watch "example"
        [.ok (some ⟨"example", "v1"⟩) ⟨5⟩, .ok (some ⟨"example", "v1"⟩) ⟨3⟩]))[2]? = some 3 ∧
    (ServiceWatch.waitIndices (ServiceWatch.Watch "example"
        [.ok [⟨"example", "10.0.0.1", 80⟩] ⟨5⟩, .ok [] ⟨3⟩]))[2]? = some 3 :=
  ⟨watch_cursor_handoff.1 "example" _ 1 (some ⟨"example", "v1"⟩) ⟨3⟩ rfl,
    watch_cursor_handoff.2.1 "example" _ 1 [] ⟨3⟩ rfl⟩

/-! ### C2: a failed poll keeps the index -/

/-- C2: in both Watch loops a failed poll does not change the cursor: the poll
after a failed one carries the same WaitIndex; the failed iteration is the
query, the error log and a sleep of one second, after which the loop goes on
from the same index; and after any run of consecutive failures every WaitIndex
is still the index of the last successful poll before the run (0 if none). -/
theorem watch_failed_poll_keeps_cursor :
    (∀ (key : String) (rs : List KVWatch.GetResult) (k : Nat) (e : String),
        rs[k]? = some (.err e) →
        (KVWatch.waitIndices (KVWatch.Watch key rs))[k + 1]? =
          (KVWatch.waitIndices (KVWatch.Watch key rs))[k]?) ∧
    (∀ (name : String) (rs : List ServiceResult) (k : Nat) (e : String),
        rs[k]? = some (.err e) →
        (ServiceWatch.waitIndices (ServiceWatch.Watch name rs))[k + 1]? =
          (ServiceWatch.waitIndices (ServiceWatch.Watch name rs))[k]?) ∧
    (∀ (key : String) (lastIndex : Nat) (e : String) (rs : List KVWatch.GetResult),
        KVWatch.loop key lastIndex (.err e :: rs) =
          .get key lastIndex :: .log (.lookupError e) :: .sleep 1 ::
            KVWatch.loop key lastIndex rs) ∧
    (∀ (name : String) (lastIndex : Nat) (e : String) (rs : List ServiceResult),
        ServiceWatch.loop name lastIndex (.err e :: rs) =
          .service name lastIndex :: .log (.queryError e) :: .sleep 1 ::
            ServiceWatch.loop name lastIndex rs) ∧
    (∀ (key : String) (pre errs : List KVWatch.GetResult),
        (∀ r ∈ errs, r.index = none) → ∀ k, pre.length ≤ k → k ≤ (pre ++ errs).length →
        (KVWatch.waitIndices (KVWatch.Watch key (pre ++ errs)))[k]? =
          some (lastSuccessIndex (pre.map KVWatch.GetResult.index))) ∧
    (∀ (name : String) (pre errs : List ServiceResult),
        (∀ r ∈ errs, r.index = none) → ∀ k, pre.length ≤ k → k ≤ (pre ++ errs).length →
        (ServiceWatch.waitIndices (ServiceWatch.Watch name (pre ++ errs)))[k]? =
          some (lastSuccessIndex (pre.map ServiceResult.index))) := by
  refine ⟨?_, ?_, fun _ _ _ _ => rfl, fun _ _ _ _ => rfl, ?_, ?_⟩
  · intro key rs k e h
    rw [kvWatch_waitIndices_Watch]
    apply cursors_succ_of_none
    rw [List.getElem?_map, h]
    rfl
  · intro name rs k e h
    rw [serviceWatch_waitIndices_Watch]
    apply cursors_succ_of_none
    rw [List.getElem?_map, h]
    rfl
  · intro key pre errs h k h1 h2
    rw [kvWatch_waitIndices_Watch, List.map_append, cursors_after_failures 0 _ _ _ k
      (by simpa using h1), if_pos (by simpa using h2)]
    · rfl
    · intro r hr
      obtain ⟨x, hx, rfl⟩ := List.mem_map.mp hr
      exact h x hx
  · intro name pre errs h k h1 h2
    rw [serviceWatch_waitIndices_Watch, List.map_append, cursors_after_failures 0 _ _ _ k
      (by simpa using h1), if_pos (by simpa using h2)]
    · rfl
    · intro r hr
      obtain ⟨x, hx, rfl⟩ := List.mem_map.mp hr
      exact h x hx

/-- C2 on one run: a poll returning index 7 followed by two failures; the
third and the fourth poll are still issued with WaitIndex 7. -/
theorem watch_failed_poll_keeps_cursor_witness :
    (KVWatch.waitIndices (KVWatch.Watch "example"
        ([.ok none ⟨7⟩] ++ [.err "timeout", .err "refused"])))[3]? = some 7 ∧
    (ServiceWatch.waitIndices (ServiceWatch.Watch "example"
        ([.ok [] ⟨7⟩] ++ [.err "timeout", .err "refused"])))[3]? = some 7 :=
  ⟨watch_failed_poll_keeps_cursor.2.2.2.2.1 "example" [.ok none ⟨7⟩]
      [.err "timeout", .err "refused"] (by decide) 3 (by decide) (by decide),
    watch_failed_poll_keeps_cursor.2.2.2.2.2 "example" [.ok [] ⟨7⟩]
      [.err "timeout", .err "refused"] (by decide) 3 (by decide) (by decide)⟩

/-! ### C3: the index supplied is the last one, not the highest one -/

/-- C3 as stated fails: when the polls return 5 and then 3, the third poll is
issued with WaitIndex 3, while the highest index observed before it is 5. -/
theorem watch_wait_index_not_highest :
    (KVWatch.waitIndices (KVWatch.Watch "example" [.ok none ⟨5⟩, .ok none ⟨3⟩]))[2]? ≠
      some (highestIndex
        ((List.take 2 [KVWatch.GetResult.ok none ⟨5⟩, .ok none ⟨3⟩]).map
          KVWatch.GetResult.index)) ∧
    (ServiceWatch.waitIndices (ServiceWatch.Watch "example" [.ok [] ⟨5⟩, .ok [] ⟨3⟩]))[2]? ≠
      some (highestIndex
        ((List.take 2 [ServiceResult.ok [] ⟨5⟩, .ok [] ⟨3⟩]).map ServiceResult.index)) := by
  constructor <;> decide

/-- C3, amended: in both Watch loops, for every sequence of poll results, the
WaitIndex of each long-poll call is the index returned by the most recent
earlier successful poll; it is the highest index observed so far whenever the
indices returned by the successful polls never decrease; and it is 0 on the
first call and on every call made before any poll has succeeded. -/
theorem watch_wait_index_last_success :
    (∀ (key : String) (rs : List KVWatch.GetResult) (k : Nat), k ≤ rs.length →
        (KVWatch.waitIndices (KVWatch.Watch key rs))[k]? =
          some (lastSuccessIndex ((rs.take k).map KVWatch.GetResult.index)) ∧
        ((okIndices (rs.map KVWatch.GetResult.index)).Pairwise (· ≤ ·) →
          (KVWatch.waitIndices (KVWatch.Watch key rs))[k]? =
            some (highestIndex ((rs.take k).map KVWatch.GetResult.index))) ∧
        ((∀ r ∈ rs.take k, r.index = none) →
          (KVWatch.waitIndices (KVWatch.Watch key rs))[k]? = some 0) ∧
        (KVWatch.waitIndices (KVWatch.Watch key rs))[0]? = some 0) ∧
    (∀ (name : String) (rs : List ServiceResult) (k : Nat), k ≤ rs.length →
        (ServiceWatch.waitIndices (ServiceWatch.Watch name rs))[k]? =
          some (lastSuccessIndex ((rs.take k).map ServiceResult.index)) ∧
        ((okIndices (rs.map ServiceResult.index)).Pairwise (· ≤ ·) →
          (ServiceWatch.waitIndices (ServiceWatch.Watch name rs))[k]? =
            some (highestIndex ((rs.take k).map ServiceResult.index))) ∧
        ((∀ r ∈ rs.take k, r.index = none) →
          (ServiceWatch.waitIndices (ServiceWatch.Watch name rs))[k]? = some 0) ∧
        (ServiceWatch.waitIndices (ServiceWatch.Watch name rs))[0]? = some 0) := by
  constructor
  · intro key rs k hk
    have hk1 : k ≤ (rs.map KVWatch.GetResult.index).length := by simpa using hk
    rw [kvWatch_waitIndices_Watch, List.map_take]
    refine ⟨cursors_getElem? 0 _ k hk1, fun h => cursors_highest _ k hk1 h, fun h => ?_,
      cursors_zero 0 _⟩
    apply cursors_before_success _ k hk1
    intro r hr
    rw [← List.map_take] at hr
    obtain ⟨x, hx, rfl⟩ := List.mem_map.mp hr
    exact h x hx
  · intro name rs k hk
    have hk1 : k ≤ (rs.map ServiceResult.index).length := by simpa using hk
    rw [serviceWatch_waitIndices_Watch, List.map_take]
    refine ⟨cursors_getElem? 0 _ k hk1, fun h => cursors_highest _ k hk1 h, fun h => ?_,
      cursors_zero 0 _⟩
    apply cursors_before_success _ k hk1
    intro r hr
    rw [← List.map_take] at hr
    obtain ⟨x, hx, rfl⟩ := List.mem_map.mp hr
    exact h x hx

/-- C3, amended, on a run whose indices increase (4, a failure, 9): the fourth
poll is issued with WaitIndex 9, the last and the highest index observed. -/
theorem watch_wait_index_last_success_witness :
    (KVWatch.waitIndices (KVWatch.Watch "example"
        [.ok none ⟨4⟩, .err "timeout", .ok (some ⟨"example", "v"⟩) ⟨9⟩]))[3]? = some 9 ∧
    (ServiceWatch.waitIndices (ServiceWatch.Watch "example"
        [.ok [] ⟨4⟩, .err "timeout", .ok [⟨"example", "10.0.0.1", 80⟩] ⟨9⟩]))[3]? = some 9 :=
  ⟨(watch_wait_index_last_success.1 "example"
      [.ok none ⟨4⟩, .err "timeout", .ok (some ⟨"example", "v"⟩) ⟨9⟩] 3 (by decide)).2.1
      (by decide),
    (watch_wait_index_last_success.2 "example"
      [.ok [] ⟨4⟩, .err "timeout", .ok [⟨"example", "10.0.0.1", 80⟩] ⟨9⟩] 3 (by decide)).2.1
      (by decide)⟩

/-! ### C4: one change report per successful poll -/

theorem kvWatch_reports_loop (key : String) (c : Nat) (rs : List KVWatch.GetResult) :
    (KVWatch.loop key c rs).filterMap KVWatch.reportIndex =
      okIndices (rs.map KVWatch.GetResult.index) := by
  induction rs generalizing c with
  | nil => rfl
  | cons r rs ih =>
    cases r with
    | ok kvPair qmeta =>
      cases kvPair <;>
        simp [KVWatch.loop, KVWatch.reportIndex, KVWatch.GetResult.index, okIndices,
          ih qmeta.LastIndex]
    | err e =>
      simp [KVWatch.loop, KVWatch.reportIndex, KVWatch.GetResult.index, okIndices, ih c]

theorem kvWatch_errors_loop (key : String) (c : Nat) (rs : List KVWatch.GetResult) :
    (KVWatch.loop key c rs).countP KVWatch.isErrorReport =
      rs.countP (fun r => r.index.isNone) := by
  induction rs generalizing c with
  | nil => rfl
  | cons r rs ih =>
    cases r with
    | ok kvPair qmeta =>
      cases kvPair <;>
        simp [KVWatch.loop, KVWatch.isErrorReport, KVWatch.GetResult.index, List.countP_cons,
          ih qmeta.LastIndex]
    | err e =>
      simp [KVWatch.loop, KVWatch.isErrorReport, KVWatch.GetResult.index, List.countP_cons, ih c]

theorem serviceWatch_reports_loop (name : String) (c : Nat) (rs : List ServiceResult) :
    (ServiceWatch.loop name c rs).filterMap ServiceWatch.reportIndex =
      okIndices (rs.map ServiceResult.index) := by
  induction rs generalizing c with
  | nil => rfl
  | cons r rs ih =>
    cases r with
    | ok instanceList qmeta =>
      by_cases hnf : serviceNotFound instanceList name = true <;>
        simp [ServiceWatch.loop, ServiceWatch.reportIndex, ServiceResult.index, okIndices, hnf,
          ih qmeta.LastIndex]
    | err e =>
      simp [ServiceWatch.loop, ServiceWatch.reportIndex, ServiceResult.index, okIndices, ih c]

theorem serviceWatch_errors_loop (name : String) (c : Nat) (rs : List ServiceResult) :
    (ServiceWatch.loop name c rs).countP ServiceWatch.isErrorReport =
      rs.countP (fun r => r.index.isNone) := by
  induction rs generalizing c with
  | nil => rfl
  | cons r rs ih =>
    cases r with
    | ok instanceList qmeta =>
      by_cases hnf : serviceNotFound instanceList name = true <;>
        simp [ServiceWatch.loop, ServiceWatch.isErrorReport, ServiceResult.index,
          List.countP_cons, hnf, ih qmeta.LastIndex]
    | err e =>
      simp [ServiceWatch.loop, ServiceWatch.isErrorReport, ServiceResult.index,
        List.countP_cons, ih c]

theorem kvWatch_render_error_ne_report (e : String) (l : KVWatch.LogLine)
    (h : (KVWatch.reportIndex (.log l)).isSome = true) :
    (KVWatch.LogLine.lookupError e).render ≠ l.render := by
  intro heq
  have h1 := congrArg (fun s => s.data.head?) heq
  cases l <;> simp [KVWatch.reportIndex] at h <;>
    simp [KVWatch.LogLine.render, String.data_append] at h1

theorem serviceWatch_render_error_ne_report (e : String) (l : ServiceWatch.LogLine)
    (h : (ServiceWatch.reportIndex (.log l)).isSome = true) :
    (ServiceWatch.LogLine.queryError e).render ≠ l.render := by
  intro heq
  have h1 := congrArg (fun s => s.data.head?) heq
  cases l <;> simp [ServiceWatch.reportIndex] at h <;>
    simp [ServiceWatch.LogLine.render, String.data_append] at h1

theorem serviceNotFound_of_absent (instanceList : List CatalogService) (name : String)
    (h : instanceList = [] ∨
      ∃ first rest, instanceList = first :: rest ∧ first.ServiceName ≠ name) :
    serviceNotFound instanceList name = true := by
  rcases h with rfl | ⟨first, rest, rfl, hne⟩
  · rfl
  · simp [serviceNotFound, hne]

/-- C4: in both Watch loops the change reports of a trace carry, in order,
exactly the indices returned by the successful polls (one report per
successful poll, none for a failed one), and the error reports are as many as
the failed polls.  A successful poll with an absent key (nil pair), or with an
absent service (empty list, or a first instance of another name), is reported
as not found with the index just returned.  An error report is never a change
report, and its text differs from the text of every change report. -/
theorem watch_change_reports :
    (∀ (key : String) (rs : List KVWatch.GetResult),
        (KVWatch.Watch key rs).filterMap KVWatch.reportIndex =
          okIndices (rs.map KVWatch.GetResult.index) ∧
        (KVWatch.Watch key rs).countP KVWatch.isErrorReport =
          rs.countP (fun r => r.index.isNone)) ∧
    (∀ (name : String) (rs : List ServiceResult),
        (ServiceWatch.Watch name rs).filterMap ServiceWatch.reportIndex =
          okIndices (rs.map ServiceResult.index) ∧
        (ServiceWatch.Watch name rs).countP ServiceWatch.isErrorReport =
          rs.countP (fun r => r.index.isNone)) ∧
    (∀ (key : String) (lastIndex : Nat) (qmeta : QueryMeta) (rs : List KVWatch.GetResult),
        KVWatch.loop key lastIndex (.ok none qmeta :: rs) =
          .get key lastIndex :: .log (.notFound qmeta.LastIndex key) ::
            KVWatch.loop key qmeta.LastIndex rs) ∧
    (∀ (key : String) (lastIndex : Nat) (p : KVWatch.KVPair) (qmeta : QueryMeta)
        (rs : List KVWatch.GetResult),
        KVWatch.loop key lastIndex (.ok (some p) qmeta :: rs) =
          .get key lastIndex :: .log (.keyValue qmeta.LastIndex key p.Value) ::
            KVWatch.loop key qmeta.LastIndex rs) ∧
    (∀ (name : String) (lastIndex : Nat) (instanceList : List CatalogService)
        (qmeta : QueryMeta) (rs : List ServiceResult),
        (instanceList = [] ∨
          ∃ first rest, instanceList = first :: rest ∧ first.ServiceName ≠ name) →
        ServiceWatch.loop name lastIndex (.ok instanceList qmeta :: rs) =
          .service name lastIndex :: .log (.notFound qmeta.LastIndex name) ::
            ServiceWatch.loop name qmeta.LastIndex rs) ∧
    (∀ (a : KVWatch.Action), KVWatch.isErrorReport a = true → KVWatch.reportIndex a = none) ∧
    (∀ (a : ServiceWatch.Action),
        ServiceWatch.isErrorReport a = true → ServiceWatch.reportIndex a = none) ∧
    (∀ (e : String) (l : KVWatch.LogLine), (KVWatch.reportIndex (.log l)).isSome = true →
        (KVWatch.LogLine.lookupError e).render ≠ l.render) ∧
    (∀ (e : String) (l : ServiceWatch.LogLine),
        (ServiceWatch.reportIndex (.log l)).isSome = true →
        (ServiceWatch.LogLine.queryError e).render ≠ l.render) := by
  refine ⟨fun key rs => ⟨?_, ?_⟩, fun name rs => ⟨?_, ?_⟩, fun _ _ _ _ => rfl,
    fun _ _ _ _ _ => rfl, ?_, ?_, ?_, kvWatch_render_error_ne_report,
    serviceWatch_render_error_ne_report⟩
  · rw [← kvWatch_reports_loop key 0 rs]
    rfl
  · rw [← kvWatch_errors_loop key 0 rs]
    rfl
  · rw [← serviceWatch_reports_loop name 0 rs]
    rfl
  · rw [← serviceWatch_errors_loop name 0 rs]
    rfl
  · intro name lastIndex instanceList qmeta rs h
    simp [ServiceWatch.loop, serviceNotFound_of_absent instanceList name h]
  · intro a h
    cases a with
    | log l => cases l <;> simp_all [KVWatch.isErrorReport, KVWatch.reportIndex]
    | get k w => simp [KVWatch.isErrorReport] at h
    | sleep n => simp [KVWatch.isErrorReport] at h
  · intro a h
    cases a with
    | log l => cases l <;> simp_all [ServiceWatch.isErrorReport, ServiceWatch.reportIndex]
    | service k w => simp [ServiceWatch.isErrorReport] at h
    | sleep n => simp [ServiceWatch.isErrorReport] at h

/-- C4 on a service whose first instance has another name: the poll returning
index 12 is reported as not found with index 12. -/
theorem watch_change_reports_witness :
    ServiceWatch.loop "example" 3 [.ok [⟨"other", "10.0.0.1", 80⟩] ⟨12⟩] =
      [.service "example" 3, .log (.notFound 12 "example"), .service "example" 12] :=
  watch_change_reports.2.2.2.2.1 "example" 3 [⟨"other", "10.0.0.1", 80⟩] ⟨12⟩ []
    (Or.inr ⟨_, _, rfl, by decide⟩)

/-! ### C5: no spacing between successful polls -/

theorem kvWatch_no_sleep_loop (key : String) (c : Nat) (rs : List KVWatch.GetResult)
    (h : ∀ r ∈ rs, r.index ≠ none) : ∀ a ∈ KVWatch.loop key c rs, KVWatch.isSleep a = false := by
  induction rs generalizing c with
  | nil =>
    intro a ha
    simp only [KVWatch.loop, List.mem_singleton] at ha
    subst ha
    rfl
  | cons r rs ih =>
    have hrs : ∀ r ∈ rs, r.index ≠ none := fun x hx => h x (List.mem_cons_of_mem _ hx)
    cases r with
    | err e => exact absurd rfl (h (.err e) (List.mem_cons_self _ _))
    | ok kvPair qmeta =>
      intro a ha
      simp only [KVWatch.loop, List.mem_cons] at ha
      rcases ha with rfl | rfl | ha
      · rfl
      · rfl
      · exact ih qmeta.LastIndex hrs a ha

theorem serviceWatch_no_sleep_loop (name : String) (c : Nat) (rs : List ServiceResult)
    (h : ∀ r ∈ rs, r.index ≠ none) :
    ∀ a ∈ ServiceWatch.loop name c rs, ServiceWatch.isSleep a = false := by
  induction rs generalizing c with
  | nil =>
    intro a ha
    simp only [ServiceWatch.loop, List.mem_singleton] at ha
    subst ha
    rfl
  | cons r rs ih =>
    have hrs : ∀ r ∈ rs, r.index ≠ none := fun x hx => h x (List.mem_cons_of_mem _ hx)
    cases r with
    | err e => exact absurd rfl (h (.err e) (List.mem_cons_self _ _))
    | ok instanceList qmeta =>
      intro a ha
      simp only [ServiceWatch.loop, List.mem_cons] at ha
      rcases ha with rfl | rfl | ha
      · rfl
      · rfl
      · exact ih qmeta.LastIndex hrs a ha

/-- C5 fails on the code: in both Watch loops, when every poll succeeds, the
trace contains no wait at all, so consecutive long-poll calls follow each other
with only the log line between them. -/
theorem watch_no_spacing_on_success :
    (∀ (key : String) (rs : List KVWatch.GetResult), (∀ r ∈ rs, r.index ≠ none) →
        ∀ a ∈ KVWatch.Watch key rs, KVWatch.isSleep a = false) ∧
    (∀ (name : String) (rs : List ServiceResult), (∀ r ∈ rs, r.index ≠ none) →
        ∀ a ∈ ServiceWatch.Watch name rs, ServiceWatch.isSleep a = false) := by
  constructor
  · intro key rs h a ha
    simp only [KVWatch.Watch, List.mem_cons] at ha
    rcases ha with rfl | ha
    · rfl
    · exact kvWatch_no_sleep_loop key 0 rs h a ha
  · intro name rs h a ha
    simp only [ServiceWatch.Watch, List.mem_cons] at ha
    rcases ha with rfl | ha
    · rfl
    · exact serviceWatch_no_sleep_loop name 0 rs h a ha

/-- C5 at a churning index: three polls that return at once with the indices
1, 2 and 3; the four calls of each loop are separated by log lines only. -/
theorem watch_no_spacing_on_success_witness :
    KVWatch.Watch "example"
        [.ok (some ⟨"example", "a"⟩) ⟨1⟩, .ok (some ⟨"example", "b"⟩) ⟨2⟩, .ok none ⟨3⟩] =
      [.log (.watching "example"),
        .get "example" 0, .log (.keyValue 1 "example" "a"),
        .get "example" 1, .log (.keyValue 2 "example" "b"),
        .get "example" 2, .log (.notFound 3 "example"),
        .get "example" 3] ∧
    KVWatch.isSleep (.sleep 1) = true ∧
    KVWatch.isSleep (.log (.keyValue 2 "example" "b")) = false ∧
    ServiceWatch.isSleep (.log (.notFound 2 "example")) = false :=
  ⟨rfl, rfl,
    watch_no_spacing_on_success.1 "example"
      [.ok (some ⟨"example", "a"⟩) ⟨1⟩, .ok (some ⟨"example", "b"⟩) ⟨2⟩, .ok none ⟨3⟩]
      (by decide) _ (by decide),
    watch_no_spacing_on_success.2 "example" [.ok [] ⟨1⟩, .ok [] ⟨2⟩] (by decide) _
      (by decide)⟩

/-! ### C9: the node list is sorted -/

theorem lexLt_iff (a b : List Char) : lexLt a b = true ↔ a < b := by
  induction a generalizing b with
  | nil =>
    cases b with
    | nil => simp [lexLt]
    | cons b bs => simp [lexLt, List.nil_lt_cons]
  | cons a as ih =>
    cases b with
    | nil => simp [lexLt]
    | cons b bs =>
      have hc : (a :: as < b :: bs) ↔ (a < b ∨ (a = b ∧ as < bs)) := by
        constructor
        · intro h
          cases h with
          | cons h => exact Or.inr ⟨rfl, h⟩
          | rel h => exact Or.inl h
        · rintro (h | ⟨rfl, h⟩)
          · exact List.Lex.rel h
          · exact List.Lex.cons h
      rw [hc, ← ih bs]
      by_cases h1 : a < b
      · simp [lexLt, h1]
      · by_cases h2 : a = b
        · simp [lexLt, h1, h2]
        · simp [lexLt, h1, h2]

/-- The comparison of the model is the order of strings. -/
theorem stringLe_iff (a b : String) : stringLe a b = true ↔ a ≤ b := by
  rw [String.le_iff_toList_le, ← not_lt]
  simp [stringLe, ← lexLt_iff, String.toList]

theorem sortStrings_perm (l : List String) : (sortStrings l).Perm l :=
  List.perm_insertionSort _ l

theorem sortStrings_sorted (l : List String) : (sortStrings l).Sorted (· ≤ ·) := by
  have htotal : IsTotal String (fun a b => stringLe a b = true) :=
    ⟨fun a b => by simpa only [stringLe_iff] using le_total a b⟩
  have htrans : IsTrans String (fun a b => stringLe a b = true) :=
    ⟨fun a b c hab hbc => by
      rw [stringLe_iff] at *
      exact le_trans hab hbc⟩
  have h := List.sorted_insertionSort (fun a b : String => stringLe a b = true) l
  exact List.Pairwise.imp (fun hab => (stringLe_iff _ _).mp hab) h

theorem serviceNotFound_cons (first : CatalogService) (rest : List CatalogService) :
    serviceNotFound (first :: rest) first.ServiceName = false := by
  simp [serviceNotFound]

/-- C9: for every non-empty instance list whose first instance carries the
queried service name, the service query and the service watch report the same
node list, joined with commas: it is a permutation of the "host:port" strings
of all the instances of the response (so it has one entry per instance), and
it is sorted in ascending string order. -/
theorem service_instances_sorted (serviceName : String) (first : CatalogService)
    (rest : List CatalogService) (qmeta : QueryMeta) (h : first.ServiceName = serviceName) :
    ∃ nodes : List String,
      nodes.Perm ((first :: rest).map fun i => i.ServiceAddress ++ ":" ++ toString i.ServicePort) ∧
      nodes.length = (first :: rest).length ∧
      nodes.Sorted (· ≤ ·) ∧
      ServiceQuery.main serviceName none (.ok (first :: rest) qmeta) =
        [.newClient, .service serviceName, .found serviceName (joinComma nodes)] ∧
      ∀ (lastIndex : Nat) (rs : List ServiceResult),
        ServiceWatch.loop serviceName lastIndex (.ok (first :: rest) qmeta :: rs) =
          .service serviceName lastIndex ::
            .log (.instances qmeta.LastIndex (joinComma nodes)) ::
            ServiceWatch.loop serviceName qmeta.LastIndex rs := by
  subst h
  refine ⟨sortStrings (nodeListOf (first :: rest)), sortStrings_perm _, ?_, sortStrings_sorted _,
    ?_, ?_⟩
  · rw [(sortStrings_perm _).length_eq]
    simp [nodeListOf]
  · simp [ServiceQuery.main, serviceNotFound_cons]
  · intro lastIndex rs
    simp [ServiceWatch.loop, serviceNotFound_cons]

/-- C9 on three instances of the service web: the sorted node list puts
10.0.0.10:80 before 10.0.0.1:8080. -/
theorem service_instances_sorted_witness :
    ∃ nodes : List String,
      nodes.Perm ["10.0.0.2:80", "10.0.0.1:8080", "10.0.0.10:80"] ∧
      nodes.length = 3 ∧
      nodes.Sorted (· ≤ ·) ∧
      ServiceQuery.main "web" none
          (.ok [⟨"web", "10.0.0.2", 80⟩, ⟨"web", "10.0.0.1", 8080⟩, ⟨"web", "10.0.0.10", 80⟩]
            ⟨7⟩) =
        [.newClient, .service "web", .found "web" (joinComma nodes)] ∧
      ∀ (lastIndex : Nat) (rs : List ServiceResult),
        ServiceWatch.loop "web" lastIndex
            (.ok [⟨"web", "10.0.0.2", 80⟩, ⟨"web", "10.0.0.1", 8080⟩, ⟨"web", "10.0.0.10", 80⟩]
              ⟨7⟩ :: rs) =
          .service "web" lastIndex :: .log (.instances 7 (joinComma nodes)) ::
            ServiceWatch.loop "web" 7 rs :=
  service_instances_sorted "web" ⟨"web", "10.0.0.2", 80⟩
    [⟨"web", "10.0.0.1", 8080⟩, ⟨"web", "10.0.0.10", 80⟩] ⟨7⟩ rfl

/-- The query of the three instances prints them in string order. -/
theorem service_query_example :
    ServiceQuery.main "web" none
        (.ok [⟨"web", "10.0.0.2", 80⟩, ⟨"web", "10.0.0.1", 8080⟩, ⟨"web", "10.0.0.10", 80⟩]
          ⟨7⟩) =
      [.newClient, .service "web", .found "web" "10.0.0.10:80,10.0.0.1:8080,10.0.0.2:80"] := by
  decide

/-! ### C10: the service ID -/

theorem id_ne_of_uuid_ne (n1 n2 u1 u2 : String) (h1 : u1.length = 36) (h2 : u2.length = 36)
    (hne : u1 ≠ u2) : n1 ++ "-" ++ u1 ≠ n2 ++ "-" ++ u2 := by
  intro heq
  have hd := congrArg String.data heq
  simp only [String.data_append] at hd
  have hlen : u1.data.length = u2.data.length := by
    rw [String.length_data, String.length_data, h1, h2]
  exact hne (String.ext (List.append_inj' hd hlen).2)

/-- C10: NewConsulService keeps its arguments and builds the ID as the name, a
hyphen and the generated UUID string; two services built with different
36-character UUID strings have different IDs, whatever their names. -/
theorem newConsulService_id :
    (∀ (name address : String) (port : Int) (uuid : String),
        (RegisterTTL.NewConsulService name address port uuid).Name = name ∧
        (RegisterTTL.NewConsulService name address port uuid).Address = address ∧
        (RegisterTTL.NewConsulService name address port uuid).Port = port ∧
        (RegisterTTL.NewConsulService name address port uuid).ID = name ++ "-" ++ uuid) ∧
    (∀ (n1 a1 : String) (p1 : Int) (u1 : String) (n2 a2 : String) (p2 : Int) (u2 : String),
        u1.length = 36 → u2.length = 36 → u1 ≠ u2 →
        (RegisterTTL.NewConsulService n1 a1 p1 u1).ID ≠
          (RegisterTTL.NewConsulService n2 a2 p2 u2).ID) :=
  ⟨fun _ _ _ _ => ⟨rfl, rfl, rfl, rfl⟩,
    fun n1 _ _ u1 n2 _ _ u2 h1 h2 hne => id_ne_of_uuid_ne n1 n2 u1 u2 h1 h2 hne⟩

/-- C10 on two names with hyphens, one a prefix of the other: the IDs differ. -/
theorem newConsulService_id_witness :
    (RegisterTTL.NewConsulService "api" "127.0.0.1" 41000
        "123e4567-e89b-12d3-a456-426614174000").ID ≠
      (RegisterTTL.NewConsulService "api-123e4567" "127.0.0.1" 41001
        "e89b12d3-a456-4266-8141-740000000000").ID :=
  newConsulService_id.2 "api" "127.0.0.1" 41000 "123e4567-e89b-12d3-a456-426614174000"
    "api-123e4567" "127.0.0.1" 41001 "e89b12d3-a456-4266-8141-740000000000"
    (by decide) (by decide) (by decide)

/-! ### C7: the heartbeat loop -/

theorem registerTTL_ticks_calls (service : RegisterTTL.ConsulService)
    (outcomes : List (Option String)) :
    (RegisterTTL.UpdateTTL.ticks service outcomes).filter (fun a => !a.isLog) =
      (List.replicate outcomes.length
        [Act.tick, .updateTTL ("service:" ++ service.ID) "" HealthPassing]).flatten := by
  have h1 : Act.isLog Act.tick = false := rfl
  have h2 : ∀ a b c, Act.isLog (Act.updateTTL a b c) = false := fun _ _ _ => rfl
  have h3 : ∀ m, Act.isLog (Act.log m) = true := fun _ => rfl
  induction outcomes with
  | nil => rfl
  | cons o rest ih =>
    cases o <;>
      simp [RegisterTTL.UpdateTTL.ticks, h1, h2, h3, List.replicate_succ, ih]

theorem registerTTL_ticks_logs (service : RegisterTTL.ConsulService)
    (outcomes : List (Option String)) :
    (RegisterTTL.UpdateTTL.ticks service outcomes).filter Act.isLog =
      outcomes.filterMap
        (fun o => o.map fun e => Act.log ("update TTL error: " ++ e ++ "\n")) := by
  induction outcomes with
  | nil => rfl
  | cons o rest ih =>
    cases o <;> simp [RegisterTTL.UpdateTTL.ticks, Act.isLog, ih]

theorem registerTTL_ticks_not_fatal (service : RegisterTTL.ConsulService)
    (outcomes : List (Option String)) :
    ∀ a ∈ RegisterTTL.UpdateTTL.ticks service outcomes,
      a.isFatal = false ∧ a ≠ .closeDone ∧ a ≠ .wgWait ∧ a ≠ .wgDone := by
  induction outcomes with
  | nil => simp [RegisterTTL.UpdateTTL.ticks]
  | cons o rest ih =>
    intro a ha
    cases o with
    | none =>
      simp only [RegisterTTL.UpdateTTL.ticks, List.nil_append, List.mem_cons] at ha
      rcases ha with rfl | rfl | ha
      · simp [Act.isFatal]
      · simp [Act.isFatal]
      · exact ih a ha
    | some e =>
      simp only [RegisterTTL.UpdateTTL.ticks, List.cons_append, List.nil_append,
        List.mem_cons] at ha
      rcases ha with rfl | rfl | rfl | ha
      · simp [Act.isFatal]
      · simp [Act.isFatal]
      · simp [Act.isFatal]
      · exact ih a ha

/-- C7: for every sequence of report outcomes, UpdateTTL issues exactly one
report per tick, each for the check "service:" followed by the ID of the
service and with status passing (leaving the log lines out, the trace is the
ticker followed by one tick and one report per outcome); the log lines are
the errors of the failed reports, in order; no action ends the process; and
after a failed report the loop goes on with the remaining ticks as after a
successful one. -/
theorem updateTTL_heartbeat (service : RegisterTTL.ConsulService)
    (outcomes : List (Option String)) :
    (RegisterTTL.UpdateTTL service outcomes).filter (fun a => !a.isLog) =
      .newTicker 1 ::
        (List.replicate outcomes.length
          [Act.tick, .updateTTL ("service:" ++ service.ID) "" "passing"]).flatten ∧
    (RegisterTTL.UpdateTTL service outcomes).filter Act.isLog =
      outcomes.filterMap
        (fun o => o.map fun e => Act.log ("update TTL error: " ++ e ++ "\n")) ∧
    (∀ a ∈ RegisterTTL.UpdateTTL service outcomes, a.isFatal = false) ∧
    (∀ (e : String) (rest : List (Option String)),
      RegisterTTL.UpdateTTL.ticks service (some e :: rest) =
        .tick :: .updateTTL ("service:" ++ service.ID) "" "passing" ::
          .log ("update TTL error: " ++ e ++ "\n") ::
          RegisterTTL.UpdateTTL.ticks service rest) ∧
    (∀ (rest : List (Option String)),
      RegisterTTL.UpdateTTL.ticks service (none :: rest) =
        .tick :: .updateTTL ("service:" ++ service.ID) "" "passing" ::
          RegisterTTL.UpdateTTL.ticks service rest) := by
  refine ⟨?_, ?_, ?_, fun _ _ => rfl, fun _ => rfl⟩
  · have h := registerTTL_ticks_calls service outcomes
    simp only [RegisterTTL.UpdateTTL, List.filter_cons, Act.isLog, HealthPassing] at h ⊢
    simpa using h
  · have h := registerTTL_ticks_logs service outcomes
    simpa [RegisterTTL.UpdateTTL, List.filter_cons, Act.isLog] using h
  · intro a ha
    simp only [RegisterTTL.UpdateTTL, List.mem_cons] at ha
    rcases ha with rfl | ha
    · rfl
    · exact (registerTTL_ticks_not_fatal service outcomes a ha).1

/-- The heartbeat of the example service over three ticks, the second report
failing. -/
theorem updateTTL_example :
    RegisterTTL.UpdateTTL (RegisterTTL.NewConsulService "example" "127.0.0.1" 41000 "u")
        [none, some "refused", none] =
      [.newTicker 1,
        .tick, .updateTTL "service:example-u" "" "passing",
        .tick, .updateTTL "service:example-u" "" "passing",
        .log "update TTL error: refused\n",
        .tick, .updateTTL "service:example-u" "" "passing"] := by
  decide

/-! ### C8: RenewSession -/

/-- C8 as stated fails: when the periodic renewal returns an error,
RenewSession logs it with log.Fatalf, which ends the process, and wg.Done is
not called. -/
theorem renewSession_error_is_fatal :
    Session.RenewSession "1s" "0f1e2d3c" (some "session expired") =
      [.log "periodically starting to renew \x270f1e2d3c\x27\n",
        .renewPeriodic "1s" "0f1e2d3c",
        .fatal "session periodic renew error: session expired\n"] ∧
    (Session.RenewSession "1s" "0f1e2d3c" (some "session expired")).any Act.isFatal = true ∧
    Act.wgDone ∉ Session.RenewSession "1s" "0f1e2d3c" (some "session expired") := by
  decide

/-- C8, amended: RenewSession ends when the periodic renewal call returns.
When it returns without error, the function logs that it stops renewing and
then reports its termination to the waiting caller (wg.Done), and no action
ends the process; when it returns an error, the error is logged with
log.Fatalf, which ends the process, and wg.Done is not called. -/
theorem renewSession_outcomes (initialTTL sessionId : String) :
    Session.RenewSession initialTTL sessionId none =
      [.log ("periodically starting to renew \x27" ++ sessionId ++ "\x27\n"),
        .renewPeriodic initialTTL sessionId,
        .log ("stopping to renew \x27" ++ sessionId ++ "\x27\n"),
        .wgDone] ∧
    (∀ e : String,
      Session.RenewSession initialTTL sessionId (some e) =
        [.log ("periodically starting to renew \x27" ++ sessionId ++ "\x27\n"),
          .renewPeriodic initialTTL sessionId,
          .fatal ("session periodic renew error: " ++ e ++ "\n")]) := by
  constructor
  · simp [Session.RenewSession, andThen, Act.isFatal]
  · intro e
    simp [Session.RenewSession, andThen, Act.isFatal]

/-! ### C6: the shutdown path of the TTL-registered service -/

/-- C6 as stated fails for the TTL-registered service: in the run where every
call succeeds and the interrupt signal arrives, main deregisters the service
although no stop signal was given and no wait for the heartbeat loop was made. -/
theorem ttl_deregister_without_stop :
    shutdownOrdered false false (RegisterTTL.main RegisterTTL.exampleEnv) = false ∧
    Act.serviceDeregister "example-123e4567-e89b-12d3-a456-426614174000" ∈
      RegisterTTL.main RegisterTTL.exampleEnv ∧
    Act.closeDone ∉ RegisterTTL.main RegisterTTL.exampleEnv ∧
    Act.wgWait ∉ RegisterTTL.main RegisterTTL.exampleEnv := by
  decide

theorem registerTTL_main_shutdown (env : RegisterTTL.Env) (host : String) (port : Int)
    (sig : String) (h1 : env.listener = .ok (host, port)) (h2 : env.clientErr = none)
    (h3 : env.registerErr = none) (h4 : env.signal = some sig) :
    ∃ pre rest, RegisterTTL.main env =
        pre ++ .recvSignal sig ::
          .log ("\x27" ++ sig ++ "\x27 signal received, graceful shutdown\n") ::
          .serviceDeregister (env.serviceName ++ "-" ++ env.uuid) :: rest ∧
      (∀ a ∈ pre, a.isTeardown = false ∧ a ≠ .closeDone ∧ a ≠ .wgWait) := by
  rcases env with ⟨serviceName, listener, uuid, clientErr, registerErr, signal, deregisterErr⟩
  simp only at h1 h2 h3 h4
  subst h1 h2 h3 h4
  refine ⟨[.newListener, .newClient,
    .serviceRegister serviceName (serviceName ++ "-" ++ uuid) host port "5s" "1m",
    .log ("registered myself as \x27" ++ serviceName ++ "\x27 service\n"),
    .go "UpdateTTL" [serviceName ++ "-" ++ uuid], .go "Start" [serviceName ++ "-" ++ uuid],
    .signalNotify],
    (match deregisterErr with
      | some e => [.fatal ("service deregister error: " ++ e)]
      | none => [.mainReturn]), ?_, ?_⟩
  · cases deregisterErr <;>
      simp [RegisterTTL.main, RegisterTTL.NewConsulService, RegisterTTL.Stop, andThen,
        Act.isFatal]
  · simp [Act.isTeardown]

theorem registerTTL_main_no_stop (env : RegisterTTL.Env) :
    ∀ a ∈ RegisterTTL.main env, a ≠ .closeDone ∧ a ≠ .wgWait ∧ a ≠ .wgDone := by
  rcases env with ⟨serviceName, listener, uuid, clientErr, registerErr, signal, deregisterErr⟩
  cases listener with
  | error e => simp [RegisterTTL.main]
  | ok hp =>
    rcases hp with ⟨host, port⟩
    cases clientErr with
    | some e => simp [RegisterTTL.main]
    | none =>
      cases registerErr with
      | some e => simp [RegisterTTL.main]
      | none =>
        cases signal with
        | none => simp [RegisterTTL.main]
        | some sig =>
          cases deregisterErr <;>
            simp [RegisterTTL.main, RegisterTTL.Stop, andThen, Act.isFatal]

theorem registerTTL_Start_no_stop (service : RegisterTTL.ConsulService)
    (serveErr : Option String) :
    ∀ a ∈ RegisterTTL.Start service serveErr, a ≠ .closeDone ∧ a ≠ .wgWait ∧ a ≠ .wgDone := by
  cases serveErr <;> simp [RegisterTTL.Start]

theorem registerTTL_main_unordered (env : RegisterTTL.Env) (host : String) (port : Int)
    (sig : String) (h1 : env.listener = .ok (host, port)) (h2 : env.clientErr = none)
    (h3 : env.registerErr = none) (h4 : env.signal = some sig) :
    shutdownOrdered false false (RegisterTTL.main env) = false := by
  rcases env with ⟨serviceName, listener, uuid, clientErr, registerErr, signal, deregisterErr⟩
  simp only at h1 h2 h3 h4
  subst h1 h2 h3 h4
  cases deregisterErr <;>
    simp [RegisterTTL.main, RegisterTTL.NewConsulService, RegisterTTL.Stop, andThen,
      Act.isFatal, Act.isTeardown, shutdownOrdered]

/-- C6, amended: in the shutdown path of the TTL-registered service (the setup
succeeded and the signal arrived) the deregister call directly follows the
reception of the signal and its log line, and nothing before it is a stop
signal or a wait, so the shutdown ordering fails on every such run; no action
of the program (of main, of UpdateTTL or of Start) signals the heartbeat loop
to stop, waits for it or confirms its termination. -/
theorem ttl_shutdown_path :
    (∀ (env : RegisterTTL.Env) (host : String) (port : Int) (sig : String),
        env.listener = .ok (host, port) → env.clientErr = none → env.registerErr = none →
        env.signal = some sig →
        ∃ pre rest, RegisterTTL.main env =
            pre ++ .recvSignal sig ::
              .log ("\x27" ++ sig ++ "\x27 signal received, graceful shutdown\n") ::
              .serviceDeregister (env.serviceName ++ "-" ++ env.uuid) :: rest ∧
          (∀ a ∈ pre, a.isTeardown = false ∧ a ≠ .closeDone ∧ a ≠ .wgWait)) ∧
    (∀ (env : RegisterTTL.Env) (host : String) (port : Int) (sig : String),
        env.listener = .ok (host, port) → env.clientErr = none → env.registerErr = none →
        env.signal = some sig →
        shutdownOrdered false false (RegisterTTL.main env) = false) ∧
    (∀ (env : RegisterTTL.Env) (service : RegisterTTL.ConsulService)
        (outcomes : List (Option String)) (serveErr : Option String),
        ∀ a ∈ RegisterTTL.main env ++ RegisterTTL.UpdateTTL service outcomes ++
            RegisterTTL.Start service serveErr,
          a ≠ .closeDone ∧ a ≠ .wgWait ∧ a ≠ .wgDone) := by
  refine ⟨registerTTL_main_shutdown, registerTTL_main_unordered, ?_⟩
  intro env service outcomes serveErr a ha
  rcases List.mem_append.mp ha with ha | ha
  · rcases List.mem_append.mp ha with ha | ha
    · exact registerTTL_main_no_stop env a ha
    · simp only [RegisterTTL.UpdateTTL, List.mem_cons] at ha
      rcases ha with rfl | ha
      · simp
      · exact (registerTTL_ticks_not_fatal service outcomes a ha).2
  · exact registerTTL_Start_no_stop service serveErr a ha

/-- C6, amended, on the example run of the TTL-registered service: it
deregisters right after the signal. -/
theorem ttl_shutdown_path_witness :
    ∃ pre rest, RegisterTTL.main RegisterTTL.exampleEnv =
        pre ++ .recvSignal "interrupt" ::
          .log ("\x27" ++ "interrupt" ++ "\x27 signal received, graceful shutdown\n") ::
          .serviceDeregister
            (RegisterTTL.exampleEnv.serviceName ++ "-" ++ RegisterTTL.exampleEnv.uuid) :: rest ∧
        (∀ a ∈ pre, a.isTeardown = false ∧ a ≠ .closeDone ∧ a ≠ .wgWait) :=
  ttl_shutdown_path.1 RegisterTTL.exampleEnv "127.0.0.1" 41000 "interrupt" rfl rfl rfl rfl

/-- The example run of the TTL-registered service, action by action. -/
theorem ttl_shutdown_example :
    RegisterTTL.main RegisterTTL.exampleEnv =
      [.newListener, .newClient,
        .serviceRegister "example" "example-123e4567-e89b-12d3-a456-426614174000"
          "127.0.0.1" 41000 "5s" "1m",
        .log "registered myself as \x27example\x27 service\n",
        .go "UpdateTTL" ["example-123e4567-e89b-12d3-a456-426614174000"],
        .go "Start" ["example-123e4567-e89b-12d3-a456-426614174000"],
        .signalNotify, .recvSignal "interrupt",
        .log "\x27interrupt\x27 signal received, graceful shutdown\n",
        .serviceDeregister "example-123e4567-e89b-12d3-a456-426614174000",
        .mainReturn] := by
  decide

/-- The example run of the main goroutine of the session program, action by
action: it closes doneCh, waits for RenewSession and returns. -/
theorem session_main_example :
    Session.main Session.exampleEnv =
      [.newClient, .sessionCreate "delete" "10s" 0,
        .log "new session created: 0f1e2d3c\n", .wgAdd 1,
        .go "RenewSession" ["1s", "0f1e2d3c"],
        .kvAcquire "example" "whatever-value" "0f1e2d3c",
        .log "\x27example\x27 key lock acquired\n", .signalNotify,
        .recvSignal "interrupt", .log "\x27interrupt\x27 signal received\n",
        .closeDone, .wgWait, .mainReturn] := by
  decide

end Consul
